import Mathlib

/-!
Shallow embedding of `src/audio2mp4.py` (audio2mp4Converter).

The script locates one `audio.*` file and one `cover.*` file in its own
directory (Python `Path.glob` with a literal case-sensitive prefix, then a
lower-cased final-suffix check against an extension allow-set), builds a
fixed ffmpeg argument list, runs it, and reports the outcome.  Filenames are
modelled as `String`, a directory listing as a `List String` in enumeration
order, and the observable behaviour of one run of `main` as a `Trace`:
the sequence of printed messages (an inductive `Msg` with its exact text in
`Msg.render`), the command passed to `subprocess.run` (if any), whether the
final `input()` acknowledgment was reached, whether an exception escaped
`main`, and the process exit status.  `str.lower` is modelled at ASCII
level (`Char.toLower`), which agrees with Python on every extension string
involved.
-/

/-- `OUTPUT_FILENAME = "movie.mp4"` from the configuration area. -/
def OUTPUT_FILENAME : String := "movie.mp4"

/-- `AUDIO_EXTS` from the configuration area (a Python set; only membership
is ever used, so a list is a faithful model). -/
def AUDIO_EXTS : List String := [".mp3", ".wav", ".m4a", ".flac", ".aac", ".ogg"]

/-- `IMAGE_EXTS` from the configuration area. -/
def IMAGE_EXTS : List String := [".jpg", ".jpeg", ".png", ".bmp", ".gif"]

/-- Index of the last occurrence of a dot in a character list
(Python `str.rfind` restricted to the pattern `'.'`), or `none`. -/
def rfindDot : List Char → Option Nat
  | [] => none
  | c :: cs =>
    match rfindDot cs with
    | some i => some (i + 1)
    | none => if c = '.' then some 0 else none

/-- Python `PurePath.suffix` of a file name: the part from the last dot on,
provided that dot is neither the first nor the last character; otherwise `""`. -/
def pySuffix (name : String) : String :=
  match rfindDot name.data with
  | some i =>
    if 0 < i ∧ i + 1 < name.data.length then String.mk (name.data.drop i) else ""
  | none => ""

/-- Python `PurePath.stem` of a file name: the part before the last dot when
that dot yields a non-empty suffix, otherwise the whole name. -/
def pyStem (name : String) : String :=
  match rfindDot name.data with
  | some i =>
    if 0 < i ∧ i + 1 < name.data.length then String.mk (name.data.take i) else name
  | none => name

/-- ASCII model of Python `str.lower` (agrees with Python on all strings the
script compares, which are ASCII extension strings). -/
def lowerStr (s : String) : String := String.mk (s.data.map Char.toLower)

/-- Whether a name matches the glob pattern `stem.*`: `fnmatch` translates it
to the literal (case-sensitive) prefix `stem.` followed by anything, so the
match is exactly a prefix test. -/
def globStarMatch (stem : String) (name : String) : Bool :=
  List.isPrefixOf (stem ++ ".").data name.data

/-- The filter of line 25: a `glob("audio.*")` hit whose lower-cased final
suffix is in `AUDIO_EXTS`. -/
def isAudioCandidate (name : String) : Bool :=
  globStarMatch "audio" name && AUDIO_EXTS.contains (lowerStr (pySuffix name))

/-- The filter of line 32: a `glob("cover.*")` hit whose lower-cased final
suffix is in `IMAGE_EXTS`. -/
def isImageCandidate (name : String) : Bool :=
  globStarMatch "cover" name && IMAGE_EXTS.contains (lowerStr (pySuffix name))

/-- Lines 24-27: `next((p for p in base_dir.glob("audio.*") if ...), None)` —
the first entry of the listing, in enumeration order, passing the filter. -/
def findAudioName (dir : List String) : Option String :=
  dir.find? isAudioCandidate

/-- Lines 31-34: the image counterpart. -/
def findImageName (dir : List String) : Option String :=
  dir.find? isImageCandidate

/-- The audio entry appended to `missing` at line 39. -/
def audioMissingLabel : String := "音声ファイル (audio.mp3, audio.wav 等)"

/-- The image entry appended to `missing` at line 41. -/
def imageMissingLabel : String := "画像ファイル (cover.jpg, cover.png 等)"

/-- Lines 37-41: the `missing` list — the audio label first when no audio
candidate was found, then the image label when no image candidate was found. -/
def missingMsgs (audio_path image_path : Option String) : List String :=
  (if audio_path.isNone then [audioMissingLabel] else []) ++
  (if image_path.isNone then [imageMissingLabel] else [])

/-- `Path.__truediv__`: joining the base directory with a file name. -/
def pyJoin (base name : String) : String := base ++ "/" ++ name

/-- Lines 59-73: the ffmpeg argument list, verbatim. -/
def buildCmd (image_path audio_path output_path : String) : List String :=
  ["ffmpeg",
   "-y",
   "-loop", "1",
   "-i", image_path,
   "-i", audio_path,
   "-c:v", "libx264",
   "-tune", "stillimage",
   "-c:a", "aac",
   "-b:a", "192k",
   "-pix_fmt", "yuv420p",
   "-vf", "pad=ceil(iw/2)*2:ceil(ih/2)*2",
   "-shortest",
   output_path]

/-- Outcome of the `subprocess.run(cmd, check=True)` call at line 77:
either the tool process exited with a return code, or the invocation itself
faulted (e.g. `FileNotFoundError` when ffmpeg is absent), described by the
exception's message. -/
inductive RunOutcome where
  | exited (code : Int)
  | fault (desc : String)
deriving DecidableEq

/-- One `print` event of the script, as a constructor carrying its variable
part; `Msg.render` gives the exact printed text. -/
inductive Msg where
  | workingDir (d : String)
  | dashes
  | missingHeader
  | missingItem (label : String)
  | foundAudio (name : String)
  | foundImage (name : String)
  | creating (name : String)
  | newlineEquals
  | successBanner (name : String)
  | equalsOnly
  | ffmpegError
  | unexpectedError (desc : String)
deriving DecidableEq

/-- `"-" * 40` (line 19 and line 56). -/
def dashLine40 : String := String.mk (List.replicate 40 '-')

/-- `"=" * 40` (lines 78 and 80). -/
def equalsLine40 : String := String.mk (List.replicate 40 '=')

/-- The exact text each `Msg` constructor prints, transcribed from the
f-strings of the script. -/
def Msg.render : Msg → String
  | .workingDir d => "📂 作業ディレクトリ: " ++ d
  | .dashes => dashLine40
  | .missingHeader => "❌ 必要なファイルが見つかりません:"
  | .missingItem label => "   - " ++ label
  | .foundAudio name => "🎵 発見: " ++ name
  | .foundImage name => "🖼️  発見: " ++ name
  | .creating name => "🎥 作成: " ++ name
  | .newlineEquals => "\n" ++ equalsLine40
  | .successBanner name => "✅ 変換成功！: " ++ name
  | .equalsOnly => equalsLine40
  | .ffmpegError => "\n❌ FFmpegのエラーが発生しました。"
  | .unexpectedError desc => "\n❌ 予期せぬエラー: " ++ desc

/-- Observable behaviour of one run of `main`: printed messages in order,
the argument list handed to `subprocess.run` (if the call was reached),
whether the closing `input(...)` acknowledgment was reached, whether an
exception escaped `main`, and the process exit status. -/
structure Trace where
  printed : List Msg
  invoked : Option (List String)
  awaitedInput : Bool
  raised : Bool
  exitCode : Nat
deriving DecidableEq

/-- Lines 75-84: the messages printed after `subprocess.run`.  `check=True`
raises `CalledProcessError` exactly on a non-zero return code, which the
first `except` turns into the ffmpeg-error line; any other exception is
caught by `except Exception` and printed with its description. -/
def reportMsgs (outcome : RunOutcome) : List Msg :=
  match outcome with
  | .exited c =>
    if c = 0 then [.newlineEquals, .successBanner OUTPUT_FILENAME, .equalsOnly]
    else [.ffmpegError]
  | .fault d => [.unexpectedError d]

/-- `main()` (lines 14-87) as a function of the base directory, the directory
listing in enumeration order, and the outcome of the external invocation.
Both exits pass through an `input(...)` acknowledgment; `main` never raises
(the `try` covers the external call, and nothing after line 16 escapes), so
the interpreter exits with status 0 on every path. -/
def mainRun (base_dir : String) (dir : List String) (outcome : RunOutcome) : Trace :=
  match findAudioName dir, findImageName dir with
  | some a, some i =>
    { printed := [.workingDir base_dir, .dashes,
                  .foundAudio a, .foundImage i, .creating OUTPUT_FILENAME, .dashes] ++
                 reportMsgs outcome,
      invoked := some (buildCmd (pyJoin base_dir i) (pyJoin base_dir a)
                                (pyJoin base_dir OUTPUT_FILENAME)),
      awaitedInput := true,
      raised := false,
      exitCode := 0 }
  | a?, i? =>
    { printed := [.workingDir base_dir, .dashes, .missingHeader] ++
                 (missingMsgs a? i?).map Msg.missingItem,
      invoked := none,
      awaitedInput := true,
      raised := false,
      exitCode := 0 }

/-- Whether `t` ends with `s`, at character level (Python `str.endswith`). -/
def strEndsWith (s t : String) : Bool := List.isSuffixOf s.data t.data

/-- A joined path always ends with the joined file name. -/
theorem strEndsWith_pyJoin (base name : String) :
    strEndsWith name (pyJoin base name) = true := by
  unfold strEndsWith pyJoin
  rw [List.isSuffixOf_iff_suffix, String.data_append]
  exact List.suffix_append _ _

/-- `find?` returns the unique member satisfying the predicate. -/
theorem find?_eq_some_of_unique {p : String → Bool} {l : List String} {a : String}
    (ha : a ∈ l) (hpa : p a = true) (huniq : ∀ x ∈ l, p x = true → x = a) :
    l.find? p = some a := by
  have h1 : (l.find? p).isSome := List.find?_isSome.mpr ⟨a, ha, hpa⟩
  obtain ⟨y, hy⟩ := Option.isSome_iff_exists.mp h1
  have hpy := List.find?_some hy
  have hmy := List.mem_of_find?_eq_some hy
  rw [hy, huniq y hmy hpy]

/-- Claim C1: when the listing holds exactly one `audio.*` file with an
allowed lower-cased final extension and exactly one `cover.*` file with an
allowed lower-cased final extension, discovery selects exactly those two
files and hands exactly them to the command, and a file failing the
extension filter is never the selection. -/
theorem C1_unique_candidates_selected
    (base_dir : String) (dir : List String) (outcome : RunOutcome) (a i : String)
    (haMem : a ∈ dir) (haCand : isAudioCandidate a = true)
    (haUniq : ∀ x ∈ dir, isAudioCandidate x = true → x = a)
    (hiMem : i ∈ dir) (hiCand : isImageCandidate i = true)
    (hiUniq : ∀ x ∈ dir, isImageCandidate x = true → x = i) :
    findAudioName dir = some a ∧ findImageName dir = some i ∧
    (mainRun base_dir dir outcome).invoked =
      some (buildCmd (pyJoin base_dir i) (pyJoin base_dir a)
                     (pyJoin base_dir OUTPUT_FILENAME)) ∧
    (∀ x : String, isAudioCandidate x = false → findAudioName dir ≠ some x) ∧
    (∀ x : String, isImageCandidate x = false → findImageName dir ≠ some x) := by
  have hA : findAudioName dir = some a := find?_eq_some_of_unique haMem haCand haUniq
  have hI : findImageName dir = some i := find?_eq_some_of_unique hiMem hiCand hiUniq
  refine ⟨hA, hI, ?_, ?_, ?_⟩
  · simp [mainRun, hA, hI]
  · intro x hx hfind
    have hcand := List.find?_some hfind
    rw [hx] at hcand
    exact Bool.false_ne_true hcand
  · intro x hx hfind
    have hcand := List.find?_some hfind
    rw [hx] at hcand
    exact Bool.false_ne_true hcand

/-- Claim C1 witness: a listing with `audio.mp3`, `cover.png` and the
decoy `audio.txt`. -/
theorem C1_witness :
    findAudioName ["audio.mp3", "cover.png", "audio.txt"] = some "audio.mp3" ∧
    findImageName ["audio.mp3", "cover.png", "audio.txt"] = some "cover.png" ∧
    (mainRun "base" ["audio.mp3", "cover.png", "audio.txt"]
        (RunOutcome.exited 0)).invoked =
      some (buildCmd (pyJoin "base" "cover.png") (pyJoin "base" "audio.mp3")
                     (pyJoin "base" OUTPUT_FILENAME)) ∧
    (∀ x : String, isAudioCandidate x = false →
      findAudioName ["audio.mp3", "cover.png", "audio.txt"] ≠ some x) ∧
    (∀ x : String, isImageCandidate x = false →
      findImageName ["audio.mp3", "cover.png", "audio.txt"] ≠ some x) :=
  C1_unique_candidates_selected "base" ["audio.mp3", "cover.png", "audio.txt"]
    (RunOutcome.exited 0) "audio.mp3" "cover.png"
    (by decide) (by decide) (by decide) (by decide) (by decide) (by decide)

/-- Claim C2: whenever a category has no qualifying candidate, the run stops
before the external invocation, and the diagnostic lists the audio label
exactly when audio is missing and the image label exactly when the image is
missing (hence both labels when both are missing). -/
theorem C2_missing_input_halts
    (base_dir : String) (dir : List String) (outcome : RunOutcome)
    (h : findAudioName dir = none ∨ findImageName dir = none) :
    (mainRun base_dir dir outcome).invoked = none ∧
    (findAudioName dir = none →
      Msg.missingItem audioMissingLabel ∈ (mainRun base_dir dir outcome).printed) ∧
    (findImageName dir = none →
      Msg.missingItem imageMissingLabel ∈ (mainRun base_dir dir outcome).printed) := by
  rcases h with h | h
  · rcases hI : findImageName dir with _ | i <;>
      simp [mainRun, h, hI, missingMsgs]
  · rcases hA : findAudioName dir with _ | a <;>
      simp [mainRun, h, hA, missingMsgs]

/-- Claim C2 witness: the empty listing misses both categories. -/
theorem C2_witness :
    (mainRun "base" [] (RunOutcome.exited 0)).invoked = none ∧
    (findAudioName [] = none →
      Msg.missingItem audioMissingLabel ∈
        (mainRun "base" [] (RunOutcome.exited 0)).printed) ∧
    (findImageName [] = none →
      Msg.missingItem imageMissingLabel ∈
        (mainRun "base" [] (RunOutcome.exited 0)).printed) :=
  C2_missing_input_halts "base" [] (RunOutcome.exited 0) (Or.inl rfl)

/-- Claim C3: once the tool is invoked, exit status zero yields the success
banner naming the output file and no failure diagnostic, while a non-zero
exit status yields the tool-failure diagnostic and no success banner. -/
theorem C3_report_matches_exit_status
    (base_dir : String) (dir : List String) (outcome : RunOutcome) (a i : String)
    (hA : findAudioName dir = some a) (hI : findImageName dir = some i) :
    (outcome = RunOutcome.exited 0 →
      Msg.successBanner OUTPUT_FILENAME ∈ (mainRun base_dir dir outcome).printed ∧
      Msg.ffmpegError ∉ (mainRun base_dir dir outcome).printed ∧
      ∀ d : String, Msg.unexpectedError d ∉ (mainRun base_dir dir outcome).printed) ∧
    (∀ c : Int, c ≠ 0 → outcome = RunOutcome.exited c →
      Msg.ffmpegError ∈ (mainRun base_dir dir outcome).printed ∧
      ∀ n : String, Msg.successBanner n ∉ (mainRun base_dir dir outcome).printed) := by
  constructor
  · rintro rfl
    simp [mainRun, hA, hI, reportMsgs]
  · rintro c hc rfl
    simp [mainRun, hA, hI, reportMsgs, hc]

/-- Claim C3 witness: both branches of the report at a concrete listing. -/
theorem C3_witness :
    ((RunOutcome.exited 0 = RunOutcome.exited 0 →
      Msg.successBanner OUTPUT_FILENAME ∈
        (mainRun "base" ["audio.mp3", "cover.png"] (RunOutcome.exited 0)).printed ∧
      Msg.ffmpegError ∉
        (mainRun "base" ["audio.mp3", "cover.png"] (RunOutcome.exited 0)).printed ∧
      ∀ d : String, Msg.unexpectedError d ∉
        (mainRun "base" ["audio.mp3", "cover.png"] (RunOutcome.exited 0)).printed) ∧
    (∀ c : Int, c ≠ 0 → RunOutcome.exited 0 = RunOutcome.exited c →
      Msg.ffmpegError ∈
        (mainRun "base" ["audio.mp3", "cover.png"] (RunOutcome.exited 0)).printed ∧
      ∀ n : String, Msg.successBanner n ∉
        (mainRun "base" ["audio.mp3", "cover.png"] (RunOutcome.exited 0)).printed)) ∧
    ((RunOutcome.exited 1 = RunOutcome.exited 0 →
      Msg.successBanner OUTPUT_FILENAME ∈
        (mainRun "base" ["audio.mp3", "cover.png"] (RunOutcome.exited 1)).printed ∧
      Msg.ffmpegError ∉
        (mainRun "base" ["audio.mp3", "cover.png"] (RunOutcome.exited 1)).printed ∧
      ∀ d : String, Msg.unexpectedError d ∉
        (mainRun "base" ["audio.mp3", "cover.png"] (RunOutcome.exited 1)).printed) ∧
    (∀ c : Int, c ≠ 0 → RunOutcome.exited 1 = RunOutcome.exited c →
      Msg.ffmpegError ∈
        (mainRun "base" ["audio.mp3", "cover.png"] (RunOutcome.exited 1)).printed ∧
      ∀ n : String, Msg.successBanner n ∉
        (mainRun "base" ["audio.mp3", "cover.png"] (RunOutcome.exited 1)).printed)) :=
  ⟨C3_report_matches_exit_status "base" ["audio.mp3", "cover.png"]
      (RunOutcome.exited 0) "audio.mp3" "cover.png" (by decide) (by decide),
   C3_report_matches_exit_status "base" ["audio.mp3", "cover.png"]
      (RunOutcome.exited 1) "audio.mp3" "cover.png" (by decide) (by decide)⟩

/-- Claim C4: every constructed command contains the pad filter expression,
`-shortest` and `-y` verbatim, and the invoked argument sequence is
determined by the directory state alone — it does not vary with the
invocation outcome (nor with anything beyond the two paths and the fixed
output name, `buildCmd` being a function of exactly those three). -/
theorem C4_fixed_flags_and_determinism (image_path audio_path output_path : String) :
    "pad=ceil(iw/2)*2:ceil(ih/2)*2" ∈ buildCmd image_path audio_path output_path ∧
    "-shortest" ∈ buildCmd image_path audio_path output_path ∧
    "-y" ∈ buildCmd image_path audio_path output_path ∧
    ∀ base_dir : String, ∀ dir : List String, ∀ o₁ o₂ : RunOutcome,
      (mainRun base_dir dir o₁).invoked = (mainRun base_dir dir o₂).invoked := by
  refine ⟨by simp [buildCmd], by simp [buildCmd], by simp [buildCmd], ?_⟩
  intro base_dir dir o₁ o₂
  rcases hA : findAudioName dir with _ | a <;>
    rcases hI : findImageName dir with _ | i <;>
      simp [mainRun, hA, hI]

/-- Claim C5: the image path is the first `-i` input, the audio path the
second, and the output path is the final argument and ends in `movie.mp4`;
in particular the listing with only `audio.mp3` and `cover.png` selects
exactly those, so `-i <cover.png path>` precedes `-i <audio.mp3 path>`. -/
theorem C5_image_first_audio_second
    (base_dir : String) (dir : List String) (outcome : RunOutcome) (a i : String)
    (hA : findAudioName dir = some a) (hI : findImageName dir = some i) :
    (mainRun base_dir dir outcome).invoked =
      some (buildCmd (pyJoin base_dir i) (pyJoin base_dir a)
                     (pyJoin base_dir OUTPUT_FILENAME)) ∧
    (buildCmd (pyJoin base_dir i) (pyJoin base_dir a)
       (pyJoin base_dir OUTPUT_FILENAME))[4]? = some "-i" ∧
    (buildCmd (pyJoin base_dir i) (pyJoin base_dir a)
       (pyJoin base_dir OUTPUT_FILENAME))[5]? = some (pyJoin base_dir i) ∧
    (buildCmd (pyJoin base_dir i) (pyJoin base_dir a)
       (pyJoin base_dir OUTPUT_FILENAME))[6]? = some "-i" ∧
    (buildCmd (pyJoin base_dir i) (pyJoin base_dir a)
       (pyJoin base_dir OUTPUT_FILENAME))[7]? = some (pyJoin base_dir a) ∧
    (buildCmd (pyJoin base_dir i) (pyJoin base_dir a)
       (pyJoin base_dir OUTPUT_FILENAME)).getLast? =
      some (pyJoin base_dir OUTPUT_FILENAME) ∧
    strEndsWith "movie.mp4" (pyJoin base_dir OUTPUT_FILENAME) = true ∧
    findAudioName ["audio.mp3", "cover.png"] = some "audio.mp3" ∧
    findImageName ["audio.mp3", "cover.png"] = some "cover.png" := by
  refine ⟨by simp [mainRun, hA, hI], rfl, rfl, rfl, rfl, rfl,
          strEndsWith_pyJoin base_dir "movie.mp4", by decide, by decide⟩

/-- Claim C5 witness: instantiated at the two-file scenario listing. -/
theorem C5_witness :
    (mainRun "base" ["audio.mp3", "cover.png"] (RunOutcome.exited 0)).invoked =
      some (buildCmd (pyJoin "base" "cover.png") (pyJoin "base" "audio.mp3")
                     (pyJoin "base" OUTPUT_FILENAME)) ∧
    (buildCmd (pyJoin "base" "cover.png") (pyJoin "base" "audio.mp3")
       (pyJoin "base" OUTPUT_FILENAME))[4]? = some "-i" ∧
    (buildCmd (pyJoin "base" "cover.png") (pyJoin "base" "audio.mp3")
       (pyJoin "base" OUTPUT_FILENAME))[5]? = some (pyJoin "base" "cover.png") ∧
    (buildCmd (pyJoin "base" "cover.png") (pyJoin "base" "audio.mp3")
       (pyJoin "base" OUTPUT_FILENAME))[6]? = some "-i" ∧
    (buildCmd (pyJoin "base" "cover.png") (pyJoin "base" "audio.mp3")
       (pyJoin "base" OUTPUT_FILENAME))[7]? = some (pyJoin "base" "audio.mp3") ∧
    (buildCmd (pyJoin "base" "cover.png") (pyJoin "base" "audio.mp3")
       (pyJoin "base" OUTPUT_FILENAME)).getLast? =
      some (pyJoin "base" OUTPUT_FILENAME) ∧
    strEndsWith "movie.mp4" (pyJoin "base" OUTPUT_FILENAME) = true ∧
    findAudioName ["audio.mp3", "cover.png"] = some "audio.mp3" ∧
    findImageName ["audio.mp3", "cover.png"] = some "cover.png" :=
  C5_image_first_audio_second "base" ["audio.mp3", "cover.png"]
    (RunOutcome.exited 0) "audio.mp3" "cover.png" (by decide) (by decide)

/-- Claim C6 counterexample: `audio.x.mp3` matches the glob `audio.*` and the
extension filter, so it is selected, yet its stem is `audio.x`, which differs
from `audio` by more than letter case — refuting the claim that every
selected candidate's stem equals `audio` case-insensitively. -/
theorem C6_counterexample :
    findAudioName ["audio.x.mp3", "cover.png"] = some "audio.x.mp3" ∧
    pyStem "audio.x.mp3" = "audio.x" ∧
    lowerStr (pyStem "audio.x.mp3") ≠ "audio" := by decide

/-- Claim C6 as amended: every selected audio candidate's file name begins
with the literal, case-sensitive prefix `audio.` and has an allowed
lower-cased final extension (so its stem begins with `audio` but may carry
further dot-separated components, e.g. `audio.x`); symmetrically, every
selected image candidate's name begins with `cover.` and has an allowed
lower-cased final extension. -/
theorem C6_amended_prefix_and_extension
    (dir : List String) (a i : String)
    (hA : findAudioName dir = some a) (hI : findImageName dir = some i) :
    globStarMatch "audio" a = true ∧
    AUDIO_EXTS.contains (lowerStr (pySuffix a)) = true ∧
    globStarMatch "cover" i = true ∧
    IMAGE_EXTS.contains (lowerStr (pySuffix i)) = true := by
  have h1 := List.find?_some hA
  have h2 := List.find?_some hI
  unfold isAudioCandidate at h1
  unfold isImageCandidate at h2
  rw [Bool.and_eq_true] at h1 h2
  exact ⟨h1.1, h1.2, h2.1, h2.2⟩

/-- Claim C6 amended witness: the counterexample listing itself. -/
theorem C6_amended_witness :
    globStarMatch "audio" "audio.x.mp3" = true ∧
    AUDIO_EXTS.contains (lowerStr (pySuffix "audio.x.mp3")) = true ∧
    globStarMatch "cover" "cover.png" = true ∧
    IMAGE_EXTS.contains (lowerStr (pySuffix "cover.png")) = true :=
  C6_amended_prefix_and_extension ["audio.x.mp3", "cover.png"]
    "audio.x.mp3" "cover.png" (by decide) (by decide)

/-- Claim C7: a fault during the invocation other than a non-zero exit
status is reported with a diagnostic carrying the fault's description, is
not re-raised, and — like every other outcome — the run still reaches the
final user acknowledgment. -/
theorem C7_unexpected_fault_reported
    (base_dir : String) (dir : List String) (a i d : String)
    (hA : findAudioName dir = some a) (hI : findImageName dir = some i) :
    Msg.unexpectedError d ∈ (mainRun base_dir dir (RunOutcome.fault d)).printed ∧
    (Msg.unexpectedError d).render = "\n❌ 予期せぬエラー: " ++ d ∧
    (mainRun base_dir dir (RunOutcome.fault d)).raised = false ∧
    (∀ outcome : RunOutcome, (mainRun base_dir dir outcome).awaitedInput = true) := by
  refine ⟨?_, rfl, ?_, ?_⟩
  · simp [mainRun, hA, hI, reportMsgs]
  · simp [mainRun, hA, hI]
  · intro outcome
    simp [mainRun, hA, hI]

/-- Claim C7 witness: a concrete fault description on a concrete listing. -/
theorem C7_witness :
    Msg.unexpectedError "ffmpeg not found" ∈
      (mainRun "base" ["audio.mp3", "cover.png"]
        (RunOutcome.fault "ffmpeg not found")).printed ∧
    (Msg.unexpectedError "ffmpeg not found").render =
      "\n❌ 予期せぬエラー: " ++ "ffmpeg not found" ∧
    (mainRun "base" ["audio.mp3", "cover.png"]
      (RunOutcome.fault "ffmpeg not found")).raised = false ∧
    (∀ outcome : RunOutcome,
      (mainRun "base" ["audio.mp3", "cover.png"] outcome).awaitedInput = true) :=
  C7_unexpected_fault_reported "base" ["audio.mp3", "cover.png"]
    "audio.mp3" "cover.png" "ffmpeg not found" (by decide) (by decide)

/-- Claim C8: every run — missing-input early exit, tool success, tool
failure, or unexpected fault — ends with `main` returning normally, so the
process exit status is 0 on every path; no outcome is signalled to a caller
through the exit status. -/
theorem C8_always_exit_zero (base_dir : String) (dir : List String) (outcome : RunOutcome) :
    (mainRun base_dir dir outcome).exitCode = 0 ∧
    (mainRun base_dir dir outcome).raised = false := by
  rcases hA : findAudioName dir with _ | a <;>
    rcases hI : findImageName dir with _ | i <;>
      simp [mainRun, hA, hI]

/-- Claim C9: eligibility depends only on the lower-cased final extension
component: `audio.mp3.txt` (final suffix `.txt`) is never a candidate even
though `.mp3` occurs inside its name, while `audio.x.mp3` (final suffix
`.mp3`) is a candidate and is selected; upper-case extensions such as
`audio.MP3` also qualify via lower-casing. -/
theorem C9_final_suffix_decides :
    pySuffix "audio.mp3.txt" = ".txt" ∧
    isAudioCandidate "audio.mp3.txt" = false ∧
    pySuffix "audio.x.mp3" = ".mp3" ∧
    isAudioCandidate "audio.x.mp3" = true ∧
    findAudioName ["audio.mp3.txt", "audio.x.mp3"] = some "audio.x.mp3" ∧
    isAudioCandidate "audio.MP3" = true := by decide

/-- Claim C10: the missing-category list never has more than two entries,
and when both categories are missing the audio label precedes the image
label, in the list and in the printed diagnostic. -/
theorem C10_missing_list_order :
    (∀ a i : Option String, (missingMsgs a i).length ≤ 2) ∧
    missingMsgs none none = [audioMissingLabel, imageMissingLabel] ∧
    (∀ base_dir : String, ∀ dir : List String, ∀ outcome : RunOutcome,
      findAudioName dir = none → findImageName dir = none →
      (mainRun base_dir dir outcome).printed =
        [Msg.workingDir base_dir, Msg.dashes, Msg.missingHeader,
         Msg.missingItem audioMissingLabel, Msg.missingItem imageMissingLabel]) := by
  refine ⟨?_, rfl, ?_⟩
  · intro a i
    rcases a with _ | a <;> rcases i with _ | i <;> simp [missingMsgs]
  · intro base_dir dir outcome hA hI
    simp [mainRun, hA, hI, missingMsgs]

/-- Claim C10 witness: the empty listing, where both labels appear in order. -/
theorem C10_witness :
    (missingMsgs none (some "cover.png")).length ≤ 2 ∧
    missingMsgs none none = [audioMissingLabel, imageMissingLabel] ∧
    (mainRun "base" [] (RunOutcome.exited 0)).printed =
      [Msg.workingDir "base", Msg.dashes, Msg.missingHeader,
       Msg.missingItem audioMissingLabel, Msg.missingItem imageMissingLabel] :=
  ⟨C10_missing_list_order.1 none (some "cover.png"),
   C10_missing_list_order.2.1,
   C10_missing_list_order.2.2 "base" [] (RunOutcome.exited 0) rfl rfl⟩
